import Mathlib

/- Verification of the WaveGVS stimulation core against its specification.
   Shallow embedding of:
   - Experiment/GVSHandler.py  (run event loop, _analog_feedback_loop,
     _send_stimulus),
   - Experiment/main.py        (WaveExp._check_gvs_status, the status
     channel await protocol),
   - Experiment/arduinoHandler.py (ArduinoHandler.run trigger loop).
   Python floats are modelled as rationals; numpy arrays as lists of
   samples (one row) or lists of rows. -/

namespace WaveGVS

/-- Voltage sample; Python float modelled as a rational number. -/
abbrev Sample := ℚ

/-- Model of a numpy ndarray of samples: one dimensional (a waveform) or
two dimensional (a stack of equal-length rows). -/
inductive NDArray where
  | one (xs : List Sample)
  | two (rows : List (List Sample))
  deriving DecidableEq, Repr

/-- The string sentinel on the parameter queue. -/
def stopString : String := "STOP"

/-- Embedding of GVSHandler._analog_feedback_loop. In numpy, the slice
expression on line 102 of GVSHandler.py returns a VIEW of the same
underlying buffer, not a copy, so the two element assignments on lines
104 and 105 mutate the buffer shared by both names; the two np.append
calls then each copy that mutated buffer and append one zero sample.
The function returns the two-row stack with the duplicate (marker) row
first and the wave sent to the GVS channel second. Defined for nonempty
input waves; the element assignments are List.set at index 0 and at the
last index, matching the Python indices 0 and -1. -/
def analog_feedback_loop (gvs_wave : List Sample)
    (start_end_blip_voltage : Sample) : List (List Sample) :=
  let buffer :=
    (gvs_wave.set 0 start_end_blip_voltage).set (gvs_wave.length - 1)
      (-start_end_blip_voltage)
  let duplicate_wave := buffer ++ [0]
  let new_gvs_wave := buffer ++ [0]
  [duplicate_wave, new_gvs_wave]

/-- Status messages the GVSHandler posts on its status queue. -/
inductive Status where
  | stim_created (b : Bool)
  | stim_sent (b : Bool)
  | t_start_gvs (t : ℚ)
  | quit (b : Bool)
  deriving DecidableEq, Repr

/-- Observable actions of one iteration of the GVSHandler event loop, in
program order: queue posts, the hardware write invocation, the hardware
quit invocation, and log calls. -/
inductive Action where
  | post (s : Status)
  | hwWrite
  | hwQuit
  | logError
  | logInfo (samps : Nat)
  deriving DecidableEq, Repr

/-- Dynamic type of a value received on the parameter queue, covering the
cases the event loop distinguishes by isinstance checks: a numpy array,
a bool, a string, or any other object (represented by an int). -/
inductive PyVal where
  | ndarray (a : NDArray)
  | pybool (b : Bool)
  | pystr (s : String)
  | pyint (n : Int)
  deriving DecidableEq, Repr

/-- Discriminator for the isinstance(data, np.ndarray) check. -/
def PyVal.isArr : PyVal → Bool
  | PyVal.ndarray _ => true
  | _ => false

/-- Outcome of the external call gvs.write_to_channel: either it returns
a count of samples written, or it raises AttributeError (the only
exception the caller catches). -/
inductive WriteOutcome where
  | ok (samps : Nat)
  | attrError
  deriving DecidableEq, Repr

/-- Expected sample count as computed in _send_stimulus lines 129 to 132:
len(stimulus) for a one dimensional stimulus, np.shape(stimulus)[1]
(the common row length) for a two dimensional one. -/
def nSamples : NDArray → Nat
  | NDArray.one xs => xs.length
  | NDArray.two rows => (rows.headD []).length

/-- Result of one iteration of the event loop body: the new value of
self.stimulus, the observable actions in program order, and whether the
loop breaks. -/
structure StepOut where
  stimulus : Option NDArray
  actions : List Action
  stop : Bool
  deriving DecidableEq, Repr

/-- Embedding of GVSHandler._send_stimulus. With no stimulus armed,
n_samples stays None and samps_written stays 0, the comparison
None == 0 is False, and only stim_sent False is posted. With a stimulus
armed, t_start_gvs is posted first, then the write is invoked; on normal
return the expected count is computed, the stimulus is discarded, and
stim_sent is posted with the result of the comparison
n_samples == samps_written; when the write raises AttributeError the
lines after it in the try block are skipped, so n_samples stays None,
samps_written stays 0, and the stimulus is NOT discarded. -/
def send_stimulus (stimulus : Option NDArray) (now : ℚ)
    (w : WriteOutcome) : Option NDArray × List Action :=
  match stimulus with
  | none => (none, [Action.post (Status.stim_sent false)])
  | some s =>
    match w with
    | WriteOutcome.ok samps =>
        (none,
         [Action.post (Status.t_start_gvs now), Action.hwWrite,
          Action.logInfo samps,
          Action.post (Status.stim_sent (decide (nSamples s = samps)))])
    | WriteOutcome.attrError =>
        (some s,
         [Action.post (Status.t_start_gvs now), Action.hwWrite,
          Action.logError, Action.logInfo 0,
          Action.post (Status.stim_sent false)])

/-- Embedding of one iteration of the while body of GVSHandler.run.
The isinstance dispatch order of the Python code is mirrored by the match
on the disjoint PyVal constructors: a string equal to STOP quits the
hardware, posts the quit status and breaks; an ndarray is stored in
self.stimulus unmodified and the None check on the freshly stored array
decides which stim_created status is posted; the boolean True calls
_send_stimulus; everything else (a non-STOP string, False, any other
object) logs an error and posts stim_created False. The parameters now,
w and quitOk supply the wall clock time, the outcome of a hardware
write, and the outcome of gvs.quit for this iteration. -/
def runStep (stimulus : Option NDArray) (data : PyVal) (now : ℚ)
    (w : WriteOutcome) (quitOk : Bool) : StepOut :=
  match data with
  | PyVal.pystr s =>
      if s = stopString then
        { stimulus := stimulus,
          actions := [Action.hwQuit, Action.post (Status.quit quitOk)],
          stop := true }
      else
        { stimulus := stimulus,
          actions := [Action.logError,
                      Action.post (Status.stim_created false)],
          stop := false }
  | PyVal.ndarray a =>
      { stimulus := some a,
        actions :=
          if (some a : Option NDArray) = none then
            [Action.post (Status.stim_created false)]
          else
            [Action.post (Status.stim_created true)],
        stop := false }
  | PyVal.pybool b =>
      if b then
        let r := send_stimulus stimulus now w
        { stimulus := r.1, actions := r.2, stop := false }
      else
        { stimulus := stimulus,
          actions := [Action.logError,
                      Action.post (Status.stim_created false)],
          stop := false }
  | PyVal.pyint _ =>
      { stimulus := stimulus,
        actions := [Action.logError,
                    Action.post (Status.stim_created false)],
        stop := false }

/-- Predicate for the inputs the event loop rejects as malformed: a
non-STOP string, the boolean False, or any object that is neither an
ndarray, nor a bool, nor a string. -/
def malformed : PyVal → Bool
  | PyVal.ndarray _ => false
  | PyVal.pybool b => !b
  | PyVal.pystr s => decide (s ≠ stopString)
  | PyVal.pyint _ => true

/-- One parameter-queue delivery together with the environment of the
iteration that consumes it: the wall clock time, the hardware write
outcome, and the gvs.quit outcome. -/
structure Event where
  data : PyVal
  now : ℚ
  write : WriteOutcome
  quitOk : Bool
  deriving DecidableEq, Repr

/-- Run of the event loop over a list of deliveries, accumulating the
observable actions; the loop breaks at a STOP delivery and ignores the
rest of the list. -/
def runTrace (stimulus : Option NDArray) :
    List Event → Option NDArray × List Action
  | [] => (stimulus, [])
  | e :: rest =>
      let r := runStep stimulus e.data e.now e.write e.quitOk
      if r.stop then (r.stimulus, r.actions)
      else
        let rr := runTrace r.stimulus rest
        (rr.1, r.actions ++ rr.2)

/-- Discriminator for the hardware write invocation action. -/
def isHwWrite : Action → Bool
  | Action.hwWrite => true
  | _ => false

/-- Discriminator for the action posting stim_sent True. -/
def isSentTruePost : Action → Bool
  | Action.post (Status.stim_sent true) => true
  | _ => false

/-- Number of hardware write invocations in an action list. -/
def writesOf (acts : List Action) : Nat :=
  (acts.filter isHwWrite).length

/-- Number of stim_sent True posts in an action list. -/
def sentTrueCount (acts : List Action) : Nat :=
  (acts.filter isSentTruePost).length

/-- Value carried by a status message: a bool or a float timestamp. -/
inductive PyStatusVal where
  | vbool (b : Bool)
  | vfloat (t : ℚ)
  deriving DecidableEq, Repr

/-- Status message, a Python dict modelled as an association list. -/
abbrev Msg := List (String × PyStatusVal)

/-- Embedding of WaveExp._check_gvs_status with blocking True, modelled
on the stream of all messages the queue will ever deliver: each get
removes the front message; a message containing the key ends the loop
with the value of the key; a message not containing the key is dropped
and the loop continues; on a stream that never delivers a matching
message the call blocks forever, modelled as none. The second component
of the result is the part of the stream left on the queue. -/
def check_gvs_status_blocking (key : String) :
    List Msg → Option (PyStatusVal × List Msg)
  | [] => none
  | status :: rest =>
    match status.lookup key with
    | some v => some (v, rest)
    | none => check_gvs_status_blocking key rest

/-- Embedding of WaveExp._check_gvs_status with blocking False, on the
list of currently available messages: an empty queue raises Empty and
returns None; otherwise the single non-blocking get removes the front
message, whose key value (or None when the key is absent) is returned
after at most this one iteration. The second component is the remaining
queue. -/
def check_gvs_status_nonblocking (key : String) :
    List Msg → Option PyStatusVal × List Msg
  | [] => (none, [])
  | status :: rest =>
    match status.lookup key with
    | some v => (some v, rest)
    | none => (none, rest)

/-- State of the ArduinoHandler.run loop: the get_trigger flag and the
stored self.trigger_time. -/
structure ArdState where
  get_trigger : Bool
  trigger_time : Option ℚ
  deriving DecidableEq, Repr

/-- Environment of one iteration of the ArduinoHandler.run loop: the
result of the non-blocking in_queue get (none models the Empty branch),
the result of arduino.read_voltage (none models an empty serial line),
and the wall clock time at the lockout check. -/
structure ArdInput where
  cmd : Option String
  meas : Option (Int × ℚ)
  now : ℚ
  deriving DecidableEq, Repr

/-- Result of one iteration of the ArduinoHandler.run loop body. -/
structure ArdOut where
  state : ArdState
  forwarded : List ℚ
  stop : Bool
  deriving DecidableEq, Repr

/-- Embedding of one iteration of the while body of ArduinoHandler.run.
A STOP command quits the serial handle and breaks. Otherwise, while
get_trigger is set, the serial line is read; a sample whose value is one
of the recognized codes 634 and 635 stores its timestamp in
trigger_time, clears get_trigger and forwards the timestamp on the
return queue. While get_trigger is clear, the elif on line 69 tests the
Python truthiness of self.trigger_time (None and 0.0 are falsy) and
whether more than 0.1 s has elapsed since it; if so it resets
get_trigger and clears trigger_time. -/
def ardStep (st : ArdState) (inp : ArdInput) : ArdOut :=
  if inp.cmd = some stopString then
    { state := st, forwarded := [], stop := true }
  else if st.get_trigger then
    match inp.meas with
    | some (number_read, timestamp) =>
        if number_read = 634 ∨ number_read = 635 then
          { state := { get_trigger := false, trigger_time := some timestamp },
            forwarded := [timestamp], stop := false }
        else
          { state := st, forwarded := [], stop := false }
    | none => { state := st, forwarded := [], stop := false }
  else
    match st.trigger_time with
    | some t =>
        if t ≠ 0 ∧ inp.now - t > 1/10 then
          { state := { get_trigger := true, trigger_time := none },
            forwarded := [], stop := false }
        else
          { state := st, forwarded := [], stop := false }
    | none => { state := st, forwarded := [], stop := false }

/-- Run of the ArduinoHandler loop over a list of iteration inputs,
accumulating the forwarded timestamps; the loop breaks at a STOP
command and ignores the rest of the list. -/
def ardTrace (st : ArdState) : List ArdInput → ArdState × List ℚ
  | [] => (st, [])
  | i :: rest =>
      let r := ardStep st i
      if r.stop then (r.state, r.forwarded)
      else
        let rr := ardTrace r.state rest
        (rr.1, r.forwarded ++ rr.2)

/-- Status key used in protocol examples. -/
def keyConnected : String := "connected"

/-- Status key used in protocol examples. -/
def keyStimSent : String := "stim_sent"

/-- C1: the claim that the primary (second) row of the stack returned by
_analog_feedback_loop keeps the input waveform boundary samples is false:
because the slice on line 102 of GVSHandler.py is a numpy view, the blip
assignments also overwrite the first and last sample of the primary row.
At the wave [0, 1, 0] with blip voltage 5/2 the function returns two
identical rows, both with boundary samples 5/2 and -5/2; the primary row
differs from the docstring value [0, 1, 0, 0]. -/
theorem c1_feedback_loop_overwrites_primary_boundary :
    analog_feedback_loop [0, 1, 0] (5/2) =
      [[5/2, 1, -(5/2), 0], [5/2, 1, -(5/2), 0]] ∧
    (analog_feedback_loop [0, 1, 0] (5/2)).getD 1 [] ≠ [0, 1, 0, 0] := by
  constructor
  · rfl
  · show ([5/2, 1, -(5/2), 0] : List Sample) ≠ [0, 1, 0, 0]
    simp

/-- C3 counterexample: with the stimulus [1] armed, a Trigger command
whose hardware write raises AttributeError leaves the stimulus armed,
refuting the claim that the stimulus is set to the absent state in the
exceptional path as well. -/
theorem c3_counterexample_stimulus_survives_throw :
    (runStep (some (NDArray.one [1])) (PyVal.pybool true) 0
        WriteOutcome.attrError true).stimulus = some (NDArray.one [1]) ∧
    some (NDArray.one [1]) ≠ (none : Option NDArray) := by
  constructor
  · rfl
  · decide

/-- C3 amended: on a Trigger command with an armed stimulus, the
stimulus is discarded immediately after a hardware write that returns
normally, whatever count it reports; but when the write raises
AttributeError, the discard line is skipped and the stimulus remains
armed. -/
theorem c3_discard_on_normal_return_only (s : NDArray) (t : ℚ)
    (samps : Nat) (q : Bool) :
    (runStep (some s) (PyVal.pybool true) t (WriteOutcome.ok samps)
        q).stimulus = none ∧
    (runStep (some s) (PyVal.pybool true) t WriteOutcome.attrError
        q).stimulus = some s :=
  ⟨rfl, rfl⟩

/-- C5: for every numpy array delivered on the parameter queue, whatever
the current state, the event loop stores the array itself, unmodified, as
the armed stimulus (never applying analog_feedback_loop), posts only
stim_created True (the stim_created False branch for array input is
unreachable, since a freshly stored array is never None), and keeps
running. -/
theorem c5_arm_stores_array_unmodified (st : Option NDArray) (a : NDArray)
    (t : ℚ) (w : WriteOutcome) (q : Bool) :
    runStep st (PyVal.ndarray a) t w q =
      { stimulus := some a,
        actions := [Action.post (Status.stim_created true)],
        stop := false } :=
  rfl

/-- C7 counterexample: with the two messages with keys connected and
stim_sent available, a non-blocking check for stim_sent returns None,
although a currently available message contains the key, refuting the
claim that all currently available messages are inspected. -/
theorem c7_counterexample_second_message_not_inspected :
    (∃ msg ∈ [[(keyConnected, PyStatusVal.vbool true)],
              [(keyStimSent, PyStatusVal.vbool false)]],
        msg.lookup keyStimSent ≠ none) ∧
    (check_gvs_status_nonblocking keyStimSent
        [[(keyConnected, PyStatusVal.vbool true)],
         [(keyStimSent, PyStatusVal.vbool false)]]).1 = none := by
  decide

/-- C7 amended: a non-blocking check inspects at most the FIRST currently
available message: on an empty queue it returns None, and otherwise it
removes the front message and returns the value of the key in that one
message, or None when that message does not contain it; later available
messages are not inspected. -/
theorem c7_nonblocking_inspects_first_only (key : String) (m : Msg)
    (rest : List Msg) :
    check_gvs_status_nonblocking key [] = (none, []) ∧
    check_gvs_status_nonblocking key (m :: rest) = (m.lookup key, rest) := by
  refine ⟨rfl, ?_⟩
  cases h : m.lookup key <;>
    simp [check_gvs_status_nonblocking, h]

/-- C8: on a Trigger command with an armed stimulus, the first two
observable actions are the posting of t_start_gvs with the send start
time followed by the hardware write invocation, for both write outcomes;
on a Trigger command with no armed stimulus, no t_start_gvs message is
posted and no write is invoked. -/
theorem c8_t_start_posted_before_write (s : NDArray) (t : ℚ)
    (w : WriteOutcome) (q : Bool) :
    (∃ rest, (runStep (some s) (PyVal.pybool true) t w q).actions =
        Action.post (Status.t_start_gvs t) :: Action.hwWrite :: rest) ∧
    (∀ u : ℚ, Action.post (Status.t_start_gvs u) ∉
        (runStep none (PyVal.pybool true) t w q).actions) ∧
    writesOf (runStep none (PyVal.pybool true) t w q).actions = 0 := by
  refine ⟨?_, ?_, rfl⟩
  · cases w
    · exact ⟨_, rfl⟩
    · exact ⟨_, rfl⟩
  · intro u
    simp [runStep, send_stimulus]

/-- C9: every parameter-queue input that is neither a numpy array, nor
the boolean True, nor the string STOP, makes the event loop log an
error, post stim_created False, leave the armed stimulus unchanged, and
keep running. -/
theorem c9_malformed_input_rejected (st : Option NDArray) (data : PyVal)
    (t : ℚ) (w : WriteOutcome) (q : Bool) (h : malformed data = true) :
    runStep st data t w q =
      { stimulus := st,
        actions := [Action.logError,
                    Action.post (Status.stim_created false)],
        stop := false } := by
  cases data with
  | ndarray a => simp [malformed] at h
  | pybool b =>
      cases b
      · rfl
      · simp [malformed] at h
  | pystr s =>
      have hs : ¬ s = stopString := by simpa [malformed] using h
      simp [runStep, hs]
  | pyint n => rfl

/-- C6: a blocking status check removes messages from the queue until
the first one containing the key, returns the value of the key in that
message, and leaves exactly the messages behind it on the queue; the
removed non-matching messages are dropped, not requeued. -/
theorem c6_blocking_await_drains_until_key (key : String)
    (pre post : List Msg) (m : Msg) (v : PyStatusVal)
    (hpre : ∀ m1 ∈ pre, m1.lookup key = none)
    (hm : m.lookup key = some v) :
    check_gvs_status_blocking key (pre ++ m :: post) = some (v, post) := by
  induction pre with
  | nil => simp [check_gvs_status_blocking, hm]
  | cons p ps ih =>
      have hp : p.lookup key = none := hpre p (by simp)
      have hps : ∀ m1 ∈ ps, m1.lookup key = none := fun m1 h1 =>
        hpre m1 (by simp [h1])
      simpa [check_gvs_status_blocking, hp] using ih hps

/-- Helper: while latched on a trigger at time ts, an iteration whose
command is not STOP and whose wall clock is within the lockout window
leaves the state unchanged and forwards nothing. -/
theorem ardStep_locked (ts : ℚ) (i : ArdInput)
    (hc : i.cmd ≠ some stopString) (hn : i.now - ts ≤ 1/10) :
    ardStep { get_trigger := false, trigger_time := some ts } i =
      { state := { get_trigger := false, trigger_time := some ts },
        forwarded := [], stop := false } := by
  have hcond : ¬(ts ≠ 0 ∧ i.now - ts > 1/10) := fun hco =>
    absurd hco.2 (not_lt.mpr hn)
  simp [ardStep, hc, hcond]
  intro _
  linarith

/-- Helper: while latched on a trigger at time ts, a run of iterations
that contain no STOP command and all fall within the lockout window
forwards nothing and keeps the latched state. -/
theorem ardTrace_locked (ts : ℚ) (ins : List ArdInput)
    (h : ∀ i ∈ ins, i.cmd ≠ some stopString ∧ i.now - ts ≤ 1/10) :
    ardTrace { get_trigger := false, trigger_time := some ts } ins =
      ({ get_trigger := false, trigger_time := some ts }, []) := by
  induction ins with
  | nil => rfl
  | cons i rest ih =>
      have hi := h i (by simp)
      have hstep := ardStep_locked ts i hi.1 hi.2
      have hrest := ih fun i1 h1 => h i1 (by simp [h1])
      simp [ardTrace, hstep, hrest]

/-- C10: after the trigger worker latches a sample with a recognized
code (634 or 635) at a positive timestamp ts, forwarding ts and clearing
the awaiting flag, every following iteration within the 0.1 s lockout
window forwards nothing and keeps the stored timestamp; an iteration at
which more than 0.1 s has elapsed since ts clears the stored timestamp,
forwards nothing, and resumes awaiting triggers. -/
theorem c10_trigger_latch_and_lockout (tt : Option ℚ) (code : Int)
    (ts now0 : ℚ) (cmd0 : Option String) (ins : List ArdInput)
    (i2 : ArdInput) (hcode : code = 634 ∨ code = 635) (hts : 0 < ts)
    (hcmd0 : cmd0 ≠ some stopString)
    (hins : ∀ i ∈ ins, i.cmd ≠ some stopString ∧ i.now - ts ≤ 1/10)
    (h2c : i2.cmd ≠ some stopString) (h2t : i2.now - ts > 1/10) :
    ardStep { get_trigger := true, trigger_time := tt }
        { cmd := cmd0, meas := some (code, ts), now := now0 } =
      { state := { get_trigger := false, trigger_time := some ts },
        forwarded := [ts], stop := false } ∧
    ardTrace { get_trigger := false, trigger_time := some ts } ins =
      ({ get_trigger := false, trigger_time := some ts }, []) ∧
    ardStep { get_trigger := false, trigger_time := some ts } i2 =
      { state := { get_trigger := true, trigger_time := none },
        forwarded := [], stop := false } := by
  refine ⟨?_, ardTrace_locked ts ins hins, ?_⟩
  · rcases hcode with h | h <;> subst h <;> simp [ardStep, hcmd0]
  · have hcond : ts ≠ 0 ∧ i2.now - ts > 1/10 := ⟨ne_of_gt hts, h2t⟩
    simp [ardStep, h2c, hcond]
    linarith

/-- Helper: sentTrueCount distributes over list append. -/
theorem sentTrueCount_append (a b : List Action) :
    sentTrueCount (a ++ b) = sentTrueCount a + sentTrueCount b := by
  simp [sentTrueCount, List.filter_append]

/-- Helper: writesOf distributes over list append. -/
theorem writesOf_append (a b : List Action) :
    writesOf (a ++ b) = writesOf a + writesOf b := by
  simp [writesOf, List.filter_append]

/-- Helper: one iteration on a non-array input with no armed stimulus
keeps the stimulus absent, posts no stim_sent True, and performs no
hardware write. -/
theorem runStep_none_nonarr (data : PyVal) (t : ℚ) (w : WriteOutcome)
    (q : Bool) (h : data.isArr = false) :
    (runStep none data t w q).stimulus = none ∧
    sentTrueCount (runStep none data t w q).actions = 0 ∧
    writesOf (runStep none data t w q).actions = 0 := by
  cases data with
  | ndarray a => simp [PyVal.isArr] at h
  | pybool b =>
      cases b
      · exact ⟨rfl, rfl, rfl⟩
      · exact ⟨rfl, rfl, rfl⟩
  | pystr s =>
      by_cases hs : s = stopString
      · subst hs
        exact ⟨rfl, rfl, rfl⟩
      · simp [runStep, hs, sentTrueCount, writesOf, isSentTruePost,
          isHwWrite]
  | pyint n => exact ⟨rfl, rfl, rfl⟩

/-- Helper: a run with no array deliveries, starting with no armed
stimulus, keeps the stimulus absent, posts no stim_sent True, and
performs no hardware write. -/
theorem runTrace_none_nonarr (evs : List Event)
    (h : ∀ e ∈ evs, e.data.isArr = false) :
    (runTrace none evs).1 = none ∧
    sentTrueCount (runTrace none evs).2 = 0 ∧
    writesOf (runTrace none evs).2 = 0 := by
  induction evs with
  | nil => exact ⟨rfl, rfl, rfl⟩
  | cons e rest ih =>
      obtain ⟨h1, h2, h3⟩ :=
        runStep_none_nonarr e.data e.now e.write e.quitOk (h e (by simp))
      obtain ⟨h4, h5, h6⟩ := ih fun e1 he1 => h e1 (by simp [he1])
      by_cases hstop : (runStep none e.data e.now e.write e.quitOk).stop
      · simp [runTrace, hstop, h1, h2, h3]
      · simp [runTrace, hstop, h1, sentTrueCount_append, writesOf_append,
          h2, h3, h4, h5, h6]

/-- Bound on the number of stim_sent True posts a run can make, by the
state it starts from: none from an unarmed state, one from an armed
state. -/
def stimBound : Option NDArray → Nat
  | none => 0
  | some _ => 1

/-- Helper: one iteration on a non-array input with an armed stimulus
posts stim_sent True at most once, and either consumes the stimulus or
leaves it armed while posting no stim_sent True. -/
theorem runStep_some_counts (s : NDArray) (data : PyVal) (t : ℚ)
    (w : WriteOutcome) (q : Bool) (h : data.isArr = false) :
    sentTrueCount (runStep (some s) data t w q).actions ≤ 1 ∧
    ((runStep (some s) data t w q).stimulus = none ∨
      ((runStep (some s) data t w q).stimulus = some s ∧
        sentTrueCount (runStep (some s) data t w q).actions = 0)) := by
  cases data with
  | ndarray a => simp [PyVal.isArr] at h
  | pybool b =>
      cases b
      · exact ⟨by simp [runStep, sentTrueCount, isSentTruePost],
          Or.inr ⟨rfl, rfl⟩⟩
      · cases w with
        | ok samps =>
            cases hb : decide (nSamples s = samps) with
            | false =>
                refine ⟨?_, Or.inl rfl⟩
                simp [runStep, send_stimulus, hb, sentTrueCount,
                  isSentTruePost]
            | true =>
                refine ⟨?_, Or.inl rfl⟩
                simp [runStep, send_stimulus, hb, sentTrueCount,
                  isSentTruePost]
        | attrError =>
            exact ⟨by simp [runStep, send_stimulus, sentTrueCount,
              isSentTruePost], Or.inr ⟨rfl, rfl⟩⟩
  | pystr s1 =>
      by_cases hs : s1 = stopString
      · subst hs
        exact ⟨by simp [runStep, sentTrueCount, isSentTruePost],
          Or.inr ⟨rfl, rfl⟩⟩
      · refine ⟨?_, Or.inr ⟨?_, ?_⟩⟩ <;>
          simp [runStep, hs, sentTrueCount, isSentTruePost]
  | pyint n =>
      exact ⟨by simp [runStep, sentTrueCount, isSentTruePost],
        Or.inr ⟨rfl, rfl⟩⟩

/-- Helper: a run with no array deliveries posts stim_sent True at most
once from an armed state and never from an unarmed state. -/
theorem runTrace_sentTrue_le (evs : List Event) :
    ∀ st : Option NDArray, (∀ e ∈ evs, e.data.isArr = false) →
      sentTrueCount (runTrace st evs).2 ≤ stimBound st := by
  induction evs with
  | nil =>
      intro st h
      cases st <;> simp [runTrace, sentTrueCount, stimBound]
  | cons e rest ih =>
      intro st h
      have harr : e.data.isArr = false := h e (by simp)
      have hrest : ∀ e1 ∈ rest, e1.data.isArr = false := fun e1 he1 =>
        h e1 (by simp [he1])
      cases st with
      | none =>
          have h0 := (runTrace_none_nonarr (e :: rest) h).2.1
          simp [stimBound, h0]
      | some s =>
          obtain ⟨hle, hd⟩ :=
            runStep_some_counts s e.data e.now e.write e.quitOk harr
          by_cases hstop : (runStep (some s) e.data e.now e.write e.quitOk).stop
          · simpa [runTrace, hstop, stimBound] using hle
          · rcases hd with hnone | ⟨hsame, hzero⟩
            · have h0 := (runTrace_none_nonarr rest hrest).2.1
              simp [runTrace, hstop, hnone, sentTrueCount_append, h0,
                stimBound]
              omega
            · have hr := ih (some s) hrest
              simp only [stimBound] at hr
              simp [runTrace, hstop, hsame, sentTrueCount_append, hzero,
                stimBound]
              omega

/-- C2: a Trigger command on an armed stimulus whose write reports the
expected count consumes the stimulus, posts stim_sent True, and invokes
the hardware write exactly once; after any further deliveries that arm
nothing, the state stays unarmed, and a later Trigger command posts only
stim_sent False and never invokes the hardware write. -/
theorem c2_trigger_without_stimulus_never_writes (s : NDArray)
    (t t1 : ℚ) (q q1 : Bool) (w1 : WriteOutcome) (evs : List Event)
    (hnoarm : ∀ e ∈ evs, e.data.isArr = false) :
    (runStep (some s) (PyVal.pybool true) t (WriteOutcome.ok (nSamples s))
        q).stimulus = none ∧
    Action.post (Status.stim_sent true) ∈
      (runStep (some s) (PyVal.pybool true) t (WriteOutcome.ok (nSamples s))
        q).actions ∧
    writesOf (runStep (some s) (PyVal.pybool true) t
        (WriteOutcome.ok (nSamples s)) q).actions = 1 ∧
    (runTrace none evs).1 = none ∧
    (runStep (runTrace none evs).1 (PyVal.pybool true) t1 w1 q1).actions =
      [Action.post (Status.stim_sent false)] ∧
    writesOf (runStep (runTrace none evs).1 (PyVal.pybool true) t1 w1
        q1).actions = 0 := by
  have hnone : (runTrace none evs).1 = none :=
    (runTrace_none_nonarr evs hnoarm).1
  refine ⟨rfl, ?_, rfl, hnone, ?_, ?_⟩
  · simp [runStep, send_stimulus]
  · rw [hnone]
    rfl
  · rw [hnone]
    rfl

/-- C4 counterexample: arm the two-sample waveform [1, 1]; a Trigger
command whose write reports 3 samples written, which is len(W) + 1,
posts stim_sent False and not stim_sent True, refuting the claim that
stim_sent True is posted iff the written count is len(W) + 1. -/
theorem c4_counterexample_expected_count_has_no_plus_one :
    (3 : Nat) = List.length [(1 : Sample), 1] + 1 ∧
    Action.post (Status.stim_sent true) ∉
      (runStep (some (NDArray.one [1, 1])) (PyVal.pybool true) 0
        (WriteOutcome.ok 3) true).actions ∧
    Action.post (Status.stim_sent false) ∈
      (runStep (some (NDArray.one [1, 1])) (PyVal.pybool true) 0
        (WriteOutcome.ok 3) true).actions := by
  refine ⟨rfl, ?_, ?_⟩
  · simp [runStep, send_stimulus, nSamples]
  · simp [runStep, send_stimulus, nSamples]

/-- C4 amended: for an armed single-channel waveform W, a Trigger
command posts stim_sent True iff the written count reported by the
hardware equals len(W); for a dual-channel waveform, iff it equals
shape(W)[1]; no extra baseline-reset sample enters the count, because
the event loop stores the array unmodified. Over any run without a
further arm command, stim_sent True is posted at most once for one
armed waveform. -/
theorem c4_sent_iff_written_equals_length (xs : List Sample)
    (rows : List (List Sample)) (t : ℚ) (samps : Nat) (q : Bool)
    (evs : List Event) (hnoarm : ∀ e ∈ evs, e.data.isArr = false) :
    (Action.post (Status.stim_sent true) ∈
        (runStep (some (NDArray.one xs)) (PyVal.pybool true) t
          (WriteOutcome.ok samps) q).actions ↔ samps = xs.length) ∧
    (Action.post (Status.stim_sent true) ∈
        (runStep (some (NDArray.two rows)) (PyVal.pybool true) t
          (WriteOutcome.ok samps) q).actions ↔
      samps = (rows.headD []).length) ∧
    sentTrueCount (runTrace (some (NDArray.one xs)) evs).2 ≤ 1 := by
  refine ⟨?_, ?_, ?_⟩
  · simp [runStep, send_stimulus, nSamples, eq_comm]
  · simp [runStep, send_stimulus, nSamples, eq_comm]
  · simpa [stimBound] using
      runTrace_sentTrue_le evs (some (NDArray.one xs)) hnoarm

/-- Witness for C2 at the one-sample waveform [1], with one malformed
delivery between the successful send and the second Trigger command. -/
theorem c2_witness :
    (∀ e ∈ [Event.mk (PyVal.pyint 7) 0 (WriteOutcome.ok 0) true],
        e.data.isArr = false) ∧
    ((runStep (some (NDArray.one [1])) (PyVal.pybool true) 0
        (WriteOutcome.ok (nSamples (NDArray.one [1]))) true).stimulus =
      none ∧
    Action.post (Status.stim_sent true) ∈
      (runStep (some (NDArray.one [1])) (PyVal.pybool true) 0
        (WriteOutcome.ok (nSamples (NDArray.one [1]))) true).actions ∧
    writesOf (runStep (some (NDArray.one [1])) (PyVal.pybool true) 0
        (WriteOutcome.ok (nSamples (NDArray.one [1]))) true).actions = 1 ∧
    (runTrace none
        [Event.mk (PyVal.pyint 7) 0 (WriteOutcome.ok 0) true]).1 = none ∧
    (runStep (runTrace none
        [Event.mk (PyVal.pyint 7) 0 (WriteOutcome.ok 0) true]).1
      (PyVal.pybool true) 0 (WriteOutcome.ok 5) true).actions =
      [Action.post (Status.stim_sent false)] ∧
    writesOf (runStep (runTrace none
        [Event.mk (PyVal.pyint 7) 0 (WriteOutcome.ok 0) true]).1
      (PyVal.pybool true) 0 (WriteOutcome.ok 5) true).actions = 0) :=
  ⟨by decide,
   c2_trigger_without_stimulus_never_writes (NDArray.one [1]) 0 0 true
     true (WriteOutcome.ok 5)
     [Event.mk (PyVal.pyint 7) 0 (WriteOutcome.ok 0) true] (by decide)⟩

/-- Witness for C4 at the one-sample waveform [1], the dual-channel
stack [[1, 2], [3, 4]], a reported count of 1 and an empty run after
the arm. -/
theorem c4_witness :
    (∀ e ∈ ([] : List Event), e.data.isArr = false) ∧
    ((Action.post (Status.stim_sent true) ∈
        (runStep (some (NDArray.one [1])) (PyVal.pybool true) 0
          (WriteOutcome.ok 1) true).actions ↔ 1 = List.length [(1 : Sample)]) ∧
    (Action.post (Status.stim_sent true) ∈
        (runStep (some (NDArray.two [[1, 2], [3, 4]])) (PyVal.pybool true) 0
          (WriteOutcome.ok 1) true).actions ↔
      1 = (List.headD [[1, 2], [3, 4]] []).length) ∧
    sentTrueCount (runTrace (some (NDArray.one [1]))
        ([] : List Event)).2 ≤ 1) :=
  ⟨by decide,
   c4_sent_iff_written_equals_length [1] [[1, 2], [3, 4]] 0 1 true []
     (by decide)⟩

/-- Witness for C6: a blocking check for the stim_sent key drops a
leading connected message, returns the stim_sent value and leaves the
message behind it on the queue. -/
theorem c6_witness :
    (∀ m1 ∈ [[(keyConnected, PyStatusVal.vbool true)]],
        m1.lookup keyStimSent = none) ∧
    List.lookup keyStimSent [(keyStimSent, PyStatusVal.vbool true)] =
      some (PyStatusVal.vbool true) ∧
    check_gvs_status_blocking keyStimSent
        ([[(keyConnected, PyStatusVal.vbool true)]] ++
          [(keyStimSent, PyStatusVal.vbool true)] ::
            [[(keyConnected, PyStatusVal.vbool false)]]) =
      some (PyStatusVal.vbool true,
        [[(keyConnected, PyStatusVal.vbool false)]]) :=
  ⟨by decide, by decide,
   c6_blocking_await_drains_until_key keyStimSent
     [[(keyConnected, PyStatusVal.vbool true)]]
     [[(keyConnected, PyStatusVal.vbool false)]]
     [(keyStimSent, PyStatusVal.vbool true)] (PyStatusVal.vbool true)
     (by decide) (by decide)⟩

/-- Witness for C9 at the integer input 5, with no armed stimulus. -/
theorem c9_witness :
    malformed (PyVal.pyint 5) = true ∧
    runStep none (PyVal.pyint 5) 0 (WriteOutcome.ok 0) true =
      { stimulus := none,
        actions := [Action.logError,
                    Action.post (Status.stim_created false)],
        stop := false } :=
  ⟨by decide,
   c9_malformed_input_rejected none (PyVal.pyint 5) 0 (WriteOutcome.ok 0)
     true (by decide)⟩

/-- Witness for C10: a trigger with code 634 latched at time 1, one
iteration inside the lockout window at time 21/20 during which a
recognized code on the line is ignored, and a reset iteration at
time 2. -/
theorem c10_witness :
    ((634 : Int) = 634 ∨ (634 : Int) = 635) ∧
    (0 : ℚ) < 1 ∧
    ((21 : ℚ)/20 - 1 ≤ 1/10) ∧
    ((2 : ℚ) - 1 > 1/10) ∧
    (ardStep { get_trigger := true, trigger_time := (none : Option ℚ) }
        { cmd := none, meas := some (634, 1), now := 1 } =
      { state := { get_trigger := false, trigger_time := some 1 },
        forwarded := [1], stop := false } ∧
    ardTrace { get_trigger := false, trigger_time := some 1 }
        [{ cmd := none, meas := some (634, 21/20), now := 21/20 }] =
      ({ get_trigger := false, trigger_time := some 1 }, []) ∧
    ardStep { get_trigger := false, trigger_time := some 1 }
        { cmd := none, meas := none, now := 2 } =
      { state := { get_trigger := true, trigger_time := none },
        forwarded := [], stop := false }) :=
  ⟨Or.inl rfl, by norm_num, by norm_num, by norm_num,
   c10_trigger_latch_and_lockout none 634 1 1 none
     [{ cmd := none, meas := some (634, 21/20), now := 21/20 }]
     { cmd := none, meas := none, now := 2 }
     (Or.inl rfl) (by norm_num) (by decide)
     (by
       intro i hi
       simp only [List.mem_singleton] at hi
       subst hi
       refine ⟨by decide, ?_⟩
       show (21 : ℚ)/20 - 1 ≤ 1/10
       norm_num)
     (by decide)
     (by
       show (2 : ℚ) - 1 > 1/10
       norm_num)⟩

end WaveGVS
